import Mathlib

/-
  Shallow embedding of mikkel-andersen-sec/udp-scanner.

  The repository holds two C programs, src/udp_scanner.c and
  src/udp_scanner_extended.c, that share the same control flow for the parts
  modelled here (probe lookup, response classification, retry loop, range
  orchestration, argument validation); they differ only in the contents of the
  probe payload table and in printf formatting details.  The embedding below
  follows src/udp_scanner.c line by line; where the extended file differs in
  an observable way it is noted in a comment.

  Modelling conventions:
  - Machine ints are Lean Int (ssize_t recvfrom results, ports parsed by atoi,
    select return values); byte buffers are List Nat of byte values.
  - The network environment (what select/recvfrom would deliver) is passed in
    explicitly: one SelectEvent per select() call, one Attempt (send success +
    event) per retry-loop iteration, one PortEnv per port.
  - Side effects (printf classification lines, global stats increments) are
    returned as data: an Option OutputLine and a ScanStats delta.  The C
    globals accumulate by addition, which the orchestrator model mirrors.
  - Wall-clock time (gettimeofday, the 2-second select deadline, usleep pacing)
    is not modelled numerically; deadline expiry is the SelectEvent.timeout
    case, exactly as select() returning 0 is the only way the code observes it.
-/

namespace UdpScanner

/-- MAX_RETRIES from udp_scanner.c line 33 (same value in the extended file). -/
def MAX_RETRIES : Nat := 2

/-- ICMP_UNREACH: the "destination unreachable" ICMP type (netinet value 3). -/
def ICMP_UNREACH : Nat := 3

/-- ICMP_UNREACH_PORT: the "port unreachable" ICMP code (netinet value 3). -/
def ICMP_UNREACH_PORT : Nat := 3

/-- scan_stats_t counters (udp_scanner.c lines 186-193).  The two timeval
    fields are wall-clock timestamps and are not modelled. -/
structure ScanStats where
  total_ports : Nat
  open_ports : Nat
  closed_ports : Nat
  filtered_ports : Nat
deriving DecidableEq, Repr

/-- The zero of ScanStats: `scan_stats_t stats = {0}` (line 195). -/
def noStats : ScanStats := ⟨0, 0, 0, 0⟩

instance : Add ScanStats :=
  ⟨fun a b => ⟨a.total_ports + b.total_ports, a.open_ports + b.open_ports,
               a.closed_ports + b.closed_ports, a.filtered_ports + b.filtered_ports⟩⟩

theorem addStats_def (a b : ScanStats) :
    a + b = ⟨a.total_ports + b.total_ports, a.open_ports + b.open_ports,
             a.closed_ports + b.closed_ports, a.filtered_ports + b.filtered_ports⟩ := rfl

@[simp] theorem addStats_noStats (a : ScanStats) : a + noStats = a := by
  cases a; simp [addStats_def, noStats]

/-- One classification line printed by receive_response, abstracting the printf
    calls at udp_scanner.c lines 277, 288, 305, 309 (the extended file prints
    the same classes with slightly different detail fields). -/
inductive OutputLine
  | openLine (port : Int) (bytes : Int)
  | closedLine (port : Int)
  | filteredLine (port : Int) (icmpType icmpCode : Nat)
  | openFilteredLine (port : Int)
deriving DecidableEq, Repr

/-- Outcome of one select() call inside receive_response:
    error (`select < 0`), deadline expiry (`select == 0`), or readiness.
    In the ready case, `udp = some n` means FD_ISSET held for the UDP socket
    and recvfrom returned `n`; `icmp = some (n, buf)` likewise for the raw
    ICMP socket, with `buf` the received bytes. -/
inductive SelectEvent
  | selErr
  | timeout
  | ready (udp : Option Int) (icmp : Option (Int × List Nat))
deriving DecidableEq, Repr

/-- What one receive_response call returns and does: the C return code
    (-1 no verdict / 0 open / 1 open-filtered / 2 closed / 3 filtered),
    the printed line if any, and the stats increment it performed. -/
structure RecvOutcome where
  retCode : Int
  output : Option OutputLine
  delta : ScanStats
deriving DecidableEq, Repr

/-- The ICMP branch of receive_response (udp_scanner.c lines 296-316): read the
    raw-socket datagram, locate the ICMP header at offset ip_hl*4 where ip_hl
    is the low nibble of buffer byte 0 (struct ip bitfield on little-endian),
    and classify destination-unreachable datagrams by code. -/
def icmpAnalyze (port : Int) (icmp : Option (Int × List Nat)) : RecvOutcome :=
  match icmp with
  | none => ⟨-1, none, noStats⟩
  | some (n, buf) =>
    if 0 < n then
      let off := (buf.getD 0 0 % 16) * 4
      let ty := buf.getD off 0
      let co := buf.getD (off + 1) 0
      if ty = ICMP_UNREACH then
        if co = ICMP_UNREACH_PORT then
          ⟨2, some (.closedLine port), ⟨0, 0, 1, 0⟩⟩
        else
          ⟨3, some (.filteredLine port ty co), ⟨0, 0, 0, 1⟩⟩
      else ⟨-1, none, noStats⟩
    else ⟨-1, none, noStats⟩

/-- receive_response (udp_scanner.c lines 252-319; identically structured at
    udp_scanner_extended.c lines 467-534): one select() on both sockets, then
    UDP data checked first (a positive recvfrom count is Open), then the ICMP
    branch, and -1 when nothing produced a verdict. -/
def receive_response (port : Int) (ev : SelectEvent) : RecvOutcome :=
  match ev with
  | .selErr => ⟨-1, none, noStats⟩
  | .timeout => ⟨1, some (.openFilteredLine port), ⟨0, 0, 0, 1⟩⟩
  | .ready udp icmp =>
    match udp with
    | some n =>
      if 0 < n then ⟨0, some (.openLine port n), ⟨0, 1, 0, 0⟩⟩
      else icmpAnalyze port icmp
    | none => icmpAnalyze port icmp

/-- udp_probe_t (udp_scanner.c lines 37-43): one row of the probe table.
    The expected_response / rfc_reference string is not consulted by any
    modelled control flow and is omitted. -/
structure UdpProbe where
  port : Int
  service_name : String
  payload : List Nat
deriving DecidableEq, Repr

/-- get_probe_for_port (udp_scanner.c lines 198-205): linear first-match scan
    of the probe table (the NULL service_name sentinel is the list end).  The
    table itself is passed as a parameter: the claims quantify over ports and
    payloads and never depend on the literal table bytes. -/
def get_probe_for_port (probes : List UdpProbe) (port : Int) : Option UdpProbe :=
  match probes with
  | [] => none
  | p :: rest => if p.port = port then some p else get_probe_for_port rest port

/-- The payload scan_udp_port selects before its retry loop
    (udp_scanner.c lines 344-353): table payload on a hit, empty_probe else. -/
def selectedPayload (probes : List UdpProbe) (port : Int) : List Nat :=
  match get_probe_for_port probes port with
  | some p => p.payload
  | none => []

/-- Environment of one retry-loop iteration: whether send_udp_probe succeeds,
    and what the subsequent select()/recvfrom cycle delivers. -/
structure Attempt where
  sendOk : Bool
  ev : SelectEvent

/-- Environment of one scan_udp_port call: whether each socket() call succeeds
    (the raw ICMP socket fails without root privilege), and the per-iteration
    attempts. -/
structure PortEnv where
  udpSockOk : Bool
  icmpSockOk : Bool
  attempts : Nat → Attempt

/-- Observable behaviour of one scan_udp_port call: the payload of every
    sendto performed, the classification lines printed, the stats delta, and
    whether the function returned early (socket creation or send failure). -/
structure ScanPortResult where
  sentPayloads : List (List Nat)
  outputs : List OutputLine
  delta : ScanStats
  aborted : Bool
deriving DecidableEq, Repr

/-- The retry loop of scan_udp_port (udp_scanner.c lines 355-370): up to `fuel`
    iterations (MAX_RETRIES at the call site); each iteration sends the probe
    (send failure returns immediately), calls receive_response, and breaks on
    result 0 or 2. -/
def scan_loop (port : Int) (payload : List Nat) (env : Nat → Attempt) :
    Nat → Nat → ScanPortResult
  | _, 0 => ⟨[], [], noStats, false⟩
  | i, fuel + 1 =>
    if (env i).sendOk then
      let r := receive_response port (env i).ev
      if r.retCode = 0 ∨ r.retCode = 2 then
        ⟨[payload], r.output.toList, r.delta, false⟩
      else
        let rest := scan_loop port payload env (i + 1) fuel
        ⟨payload :: rest.sentPayloads, r.output.toList ++ rest.outputs,
         r.delta + rest.delta, rest.aborted⟩
    else ⟨[], [], noStats, true⟩

/-- scan_udp_port (udp_scanner.c lines 322-374): creates the UDP socket, then
    the raw ICMP socket — failure of either returns with nothing sent and no
    verdict — then selects the payload once and runs the retry loop. -/
def scan_udp_port (probes : List UdpProbe) (port : Int) (env : PortEnv) :
    ScanPortResult :=
  if env.udpSockOk then
    if env.icmpSockOk then
      scan_loop port (selectedPayload probes port) env.attempts 0 MAX_RETRIES
    else ⟨[], [], noStats, true⟩
  else ⟨[], [], noStats, true⟩

/-- The port loop of main (udp_scanner.c lines 438-444): for `count` ports
    starting at `port`, run scan_udp_port and then increment total_ports
    unconditionally.  Stats deltas accumulate by addition, matching the
    global-counter increments in the C code. -/
def scan_ports (probes : List UdpProbe) (env : Int → PortEnv) :
    Int → Nat → ScanStats
  | _, 0 => noStats
  | port, count + 1 =>
    ((scan_udp_port probes port (env port)).delta + ⟨1, 0, 0, 0⟩)
      + scan_ports probes env (port + 1) count

/-- The whole scan over [startPort, endPort] as main runs it: the C for-loop
    `for (port = start_port; port <= end_port; port++)` executes
    (endPort - startPort + 1) iterations (zero when startPort > endPort). -/
def scan_range (probes : List UdpProbe) (env : Int → PortEnv)
    (startPort endPort : Int) : ScanStats :=
  scan_ports probes env startPort (endPort - startPort + 1).toNat

/-- Result of a main run: the process exit code, and the final statistics when
    the scan loop actually ran (none when main returned before it, i.e. before
    any socket was opened). -/
structure MainResult where
  exitCode : Int
  scanned : Option ScanStats
deriving DecidableEq, Repr

/-- main (udp_scanner.c lines 404-449): usage check, atoi-parsed port-range
    validation (rejecting before any socket is opened), then the scan loop and
    exit code 0.  `argcIs4` is the `argc != 4` usage check. -/
def mainRun (probes : List UdpProbe) (env : Int → PortEnv) (argcIs4 : Bool)
    (startPort endPort : Int) : MainResult :=
  if argcIs4 = false then ⟨1, none⟩
  else if startPort < 1 ∨ startPort > 65535 ∨ endPort < 1 ∨ endPort > 65535
          ∨ startPort > endPort then ⟨1, none⟩
  else ⟨0, some (scan_range probes env startPort endPort)⟩

/- Concrete network fixtures used by witnesses and counterexamples.
   Each ICMP buffer is an IPv4 datagram whose first byte 0x45 gives ip_hl = 5,
   so the ICMP header starts at offset 20: byte 20 is the ICMP type and byte 21
   the ICMP code, exactly where receive_response reads them. -/

/-- ICMP destination-unreachable, code port-unreachable (type 3, code 3). -/
def bufPortUnreach : List Nat := [0x45] ++ List.replicate 19 0 ++ [3, 3]

/-- ICMP destination-unreachable, code host-unreachable (type 3, code 1). -/
def bufHostUnreach : List Nat := [0x45] ++ List.replicate 19 0 ++ [3, 1]

/-- ICMP echo reply (type 0, code 0): not a destination-unreachable datagram. -/
def bufEchoReply : List Nat := [0x45] ++ List.replicate 19 0 ++ [0, 0]

/-- A port environment where every select() call times out. -/
def envTimeout : PortEnv := ⟨true, true, fun _ => ⟨true, SelectEvent.timeout⟩⟩

/-- A port environment where the UDP socket delivers a 100-byte reply. -/
def envUdpReply : PortEnv :=
  ⟨true, true, fun _ => ⟨true, SelectEvent.ready (some 100) none⟩⟩

/-- A port environment where attempt 0 observes an unrelated ICMP echo reply
    and attempt 1 observes a port-unreachable datagram. -/
def envEchoThenUnreach : PortEnv :=
  ⟨true, true, fun i =>
    ⟨true, if i = 0 then SelectEvent.ready none (some (28, bufEchoReply))
           else SelectEvent.ready none (some (28, bufPortUnreach))⟩⟩

/-- An unprivileged run: raw ICMP socket creation fails for every port. -/
def envNoPriv : Int → PortEnv :=
  fun _ => ⟨true, false, fun _ => ⟨true, SelectEvent.timeout⟩⟩

/-- A run where every sendto fails, so every port's probe aborts early. -/
def envSendFail : Int → PortEnv :=
  fun _ => ⟨true, true, fun _ => ⟨false, SelectEvent.timeout⟩⟩

/-- The two-port scenario of the spec's end-to-end property: port 53 gets a
    UDP reply, every other port times out on every attempt. -/
def envOneReplyOneTimeout : Int → PortEnv :=
  fun p => if p = 53 then envUdpReply else envTimeout

/-  ------------------------------------------------------------------
    Claim theorems
    ------------------------------------------------------------------ -/

/-- C1: a received raw-socket datagram with ICMP type destination-unreachable
    is classified Closed (return 2) when its code is port-unreachable, and
    Filtered (return 3) carrying the observed type and code for any other
    code.  The hypothesis on `udp` states that the UDP branch did not already
    return (its socket was not ready, or its recvfrom count was ≤ 0), which is
    the only way the C code reaches the ICMP recvfrom. -/
theorem c1_icmp_unreachable_classification (port : Int) (udp : Option Int)
    (n : Int) (buf : List Nat)
    (hn : 0 < n) (hudp : ∀ m, udp = some m → m ≤ 0)
    (hty : buf.getD ((buf.getD 0 0 % 16) * 4) 0 = ICMP_UNREACH) :
    receive_response port (SelectEvent.ready udp (some (n, buf))) =
      if buf.getD ((buf.getD 0 0 % 16) * 4 + 1) 0 = ICMP_UNREACH_PORT then
        ⟨2, some (.closedLine port), ⟨0, 0, 1, 0⟩⟩
      else
        ⟨3, some (.filteredLine port ICMP_UNREACH
            (buf.getD ((buf.getD 0 0 % 16) * 4 + 1) 0)), ⟨0, 0, 0, 1⟩⟩ := by
  have hic : icmpAnalyze port (some (n, buf)) =
      if buf.getD ((buf.getD 0 0 % 16) * 4 + 1) 0 = ICMP_UNREACH_PORT then
        ⟨2, some (.closedLine port), ⟨0, 0, 1, 0⟩⟩
      else
        ⟨3, some (.filteredLine port ICMP_UNREACH
            (buf.getD ((buf.getD 0 0 % 16) * 4 + 1) 0)), ⟨0, 0, 0, 1⟩⟩ := by
    simp only [icmpAnalyze, if_pos hn]
    rw [hty, if_pos rfl]
  cases udp with
  | none => simpa only [receive_response] using hic
  | some m =>
    have hm : ¬ 0 < m := by have := hudp m rfl; omega
    simpa only [receive_response, if_neg hm] using hic

/-- Witness for C1 at a concrete port-unreachable datagram. -/
theorem c1_witness :
    receive_response 53 (SelectEvent.ready none (some (28, bufPortUnreach))) =
      ⟨2, some (.closedLine 53), ⟨0, 0, 1, 0⟩⟩ := by
  have h := c1_icmp_unreachable_classification 53 none 28 bufPortUnreach
    (by decide) (fun m hm => nomatch hm) (by decide)
  rw [h]; decide

/-- C2 counterexample: a zero-length UDP datagram (recvfrom returning 0) does
    not yield Open with byte count 0 — the `n > 0` test at udp_scanner.c line
    287 fails, nothing is printed, no counter moves, and the call returns -1. -/
theorem c2_counterexample :
    receive_response 53 (SelectEvent.ready (some 0) none) = ⟨-1, none, noStats⟩ ∧
    receive_response 53 (SelectEvent.ready (some 0) none) ≠
      ⟨0, some (.openLine 53 0), ⟨0, 1, 0, 0⟩⟩ := by decide

/-- C2 amended: a UDP datagram with a positive byte count yields Open carrying
    that count; a zero-length datagram yields no verdict at all (return -1,
    nothing printed, no counter update). -/
theorem c2_amended_udp_reply :
    (∀ (port n : Int) (icmp : Option (Int × List Nat)), 0 < n →
      receive_response port (SelectEvent.ready (some n) icmp) =
        ⟨0, some (.openLine port n), ⟨0, 1, 0, 0⟩⟩) ∧
    ∀ (port : Int),
      receive_response port (SelectEvent.ready (some 0) none) =
        ⟨-1, none, noStats⟩ := by
  constructor
  · intro port n icmp hn
    simp only [receive_response, if_pos hn]
  · intro port; rfl

/-- Witness for C2's amended theorem at a concrete 100-byte reply. -/
theorem c2_amended_witness :
    receive_response 53 (SelectEvent.ready (some 100) none) =
      ⟨0, some (.openLine 53 100), ⟨0, 1, 0, 0⟩⟩ :=
  c2_amended_udp_reply.1 53 100 none (by decide)

/-- C3: when select() returns 0 (the deadline elapsed with no data on either
    socket) the classifier prints OPEN|FILTERED, bumps the filtered counter
    and returns 1, for every port. -/
theorem c3_timeout_open_filtered (port : Int) :
    receive_response port SelectEvent.timeout =
      ⟨1, some (.openFilteredLine port), ⟨0, 0, 0, 1⟩⟩ := rfl

/-  Helper lemmas about the retry loop, shared by several claims. -/

theorem scan_loop_zero (port : Int) (pay : List Nat) (env : Nat → Attempt)
    (i : Nat) : scan_loop port pay env i 0 = ⟨[], [], noStats, false⟩ := rfl

theorem scan_loop_sendFail (port : Int) (pay : List Nat) (env : Nat → Attempt)
    (i fuel : Nat) (h : (env i).sendOk = false) :
    scan_loop port pay env i (fuel + 1) = ⟨[], [], noStats, true⟩ := by
  simp [scan_loop, h]

theorem scan_loop_break (port : Int) (pay : List Nat) (env : Nat → Attempt)
    (i fuel : Nat) (h : (env i).sendOk = true)
    (hr : (receive_response port (env i).ev).retCode = 0 ∨
          (receive_response port (env i).ev).retCode = 2) :
    scan_loop port pay env i (fuel + 1) =
      ⟨[pay], (receive_response port (env i).ev).output.toList,
       (receive_response port (env i).ev).delta, false⟩ := by
  simp only [scan_loop, h, if_true]
  rw [if_pos hr]

theorem scan_loop_cont (port : Int) (pay : List Nat) (env : Nat → Attempt)
    (i fuel : Nat) (h : (env i).sendOk = true)
    (hr : ¬((receive_response port (env i).ev).retCode = 0 ∨
            (receive_response port (env i).ev).retCode = 2)) :
    scan_loop port pay env i (fuel + 1) =
      ⟨pay :: (scan_loop port pay env (i + 1) fuel).sentPayloads,
       (receive_response port (env i).ev).output.toList ++
         (scan_loop port pay env (i + 1) fuel).outputs,
       (receive_response port (env i).ev).delta +
         (scan_loop port pay env (i + 1) fuel).delta,
       (scan_loop port pay env (i + 1) fuel).aborted⟩ := by
  simp only [scan_loop, h, if_true]
  rw [if_neg hr]

theorem scan_loop_one_sent (port : Int) (pay : List Nat) (env : Nat → Attempt)
    (i : Nat) (h : (env i).sendOk = true) :
    (scan_loop port pay env i 1).sentPayloads = [pay] := by
  by_cases hr : (receive_response port (env i).ev).retCode = 0 ∨
      (receive_response port (env i).ev).retCode = 2
  · have e : scan_loop port pay env i 1 = scan_loop port pay env i (0 + 1) := rfl
    rw [e, scan_loop_break port pay env i 0 h hr]
  · have e : scan_loop port pay env i 1 = scan_loop port pay env i (0 + 1) := rfl
    rw [e, scan_loop_cont port pay env i 0 h hr]
    simp [scan_loop_zero]

theorem scan_udp_port_loop (probes : List UdpProbe) (port : Int) (env : PortEnv)
    (hu : env.udpSockOk = true) (hi : env.icmpSockOk = true) :
    scan_udp_port probes port env =
      scan_loop port (selectedPayload probes port) env.attempts 0 2 := by
  simp [scan_udp_port, hu, hi, MAX_RETRIES]

/-- C4 counterexample: with an unrelated ICMP echo reply pending at attempt 1
    and a port-unreachable datagram behind it, the classifier does not keep
    waiting within the first attempt's deadline: the first receive_response
    call returns -1 (the attempt ends), and the prober performs a second send
    — 2 payloads leave the socket — before the unreachable datagram is seen.
    Under the claim the classifier would have kept waiting in the same
    attempt, and only one probe would ever have been sent. -/
theorem c4_counterexample :
    receive_response 80 (SelectEvent.ready none (some (28, bufEchoReply))) =
      ⟨-1, none, noStats⟩ ∧
    (scan_udp_port [] 80 envEchoThenUnreach).sentPayloads.length = 2 ∧
    (scan_udp_port [] 80 envEchoThenUnreach).outputs =
      [OutputLine.closedLine 80] := by decide

/-- C4 amended: an ICMP datagram whose type is not destination-unreachable
    yields no verdict (return -1, nothing printed, no counter update), and the
    classifier returns, ending the attempt: the prober treats the -1 result
    like an ambiguous verdict and re-sends the probe — a second sendto occurs
    — starting a fresh full deadline, rather than continuing to wait within
    the first attempt's remaining deadline. -/
theorem c4_amended_ignored_icmp_ends_attempt (probes : List UdpProbe)
    (port : Int) (env : PortEnv) (udp : Option Int) (n : Int) (buf : List Nat)
    (hu : env.udpSockOk = true) (hi : env.icmpSockOk = true)
    (hs : ∀ i, (env.attempts i).sendOk = true)
    (hev : (env.attempts 0).ev = SelectEvent.ready udp (some (n, buf)))
    (hn : 0 < n) (hudp : ∀ m, udp = some m → m ≤ 0)
    (hty : buf.getD ((buf.getD 0 0 % 16) * 4) 0 ≠ ICMP_UNREACH) :
    receive_response port (env.attempts 0).ev = ⟨-1, none, noStats⟩ ∧
    (scan_udp_port probes port env).sentPayloads.length = 2 := by
  have hic : icmpAnalyze port (some (n, buf)) = ⟨-1, none, noStats⟩ := by
    simp only [icmpAnalyze, if_pos hn]
    rw [if_neg hty]
  have h0 : receive_response port (env.attempts 0).ev = ⟨-1, none, noStats⟩ := by
    rw [hev]
    cases udp with
    | none => simpa only [receive_response] using hic
    | some m =>
      have hm : ¬ 0 < m := by have := hudp m rfl; omega
      simpa only [receive_response, if_neg hm] using hic
  refine ⟨h0, ?_⟩
  have hr : ¬((receive_response port (env.attempts 0).ev).retCode = 0 ∨
      (receive_response port (env.attempts 0).ev).retCode = 2) := by
    rw [h0]; decide
  rw [scan_udp_port_loop probes port env hu hi]
  have e : scan_loop port (selectedPayload probes port) env.attempts 0 2 =
      scan_loop port (selectedPayload probes port) env.attempts 0 (1 + 1) := rfl
  rw [e, scan_loop_cont port (selectedPayload probes port) env.attempts 0 1
    (hs 0) hr]
  simp [scan_loop_one_sent port (selectedPayload probes port) env.attempts 1
    (hs 1)]

/-- Witness for C4's amended theorem: the concrete echo-reply-then-unreachable
    environment of the counterexample. -/
theorem c4_amended_witness :
    receive_response 80 (envEchoThenUnreach.attempts 0).ev =
      ⟨-1, none, noStats⟩ ∧
    (scan_udp_port [] 80 envEchoThenUnreach).sentPayloads.length = 2 :=
  c4_amended_ignored_icmp_ends_attempt [] 80 envEchoThenUnreach none 28
    bufEchoReply rfl rfl (fun _ => rfl) rfl (by decide)
    (fun m hm => nomatch hm) (by decide)

theorem icmpAnalyze_ambiguous_isSome (port : Int)
    (icmp : Option (Int × List Nat))
    (h : (icmpAnalyze port icmp).retCode = 1 ∨
         (icmpAnalyze port icmp).retCode = 3) :
    (icmpAnalyze port icmp).output.isSome := by
  rcases icmp with _ | ⟨n, buf⟩
  · simp [icmpAnalyze] at h
  · simp only [icmpAnalyze] at h ⊢
    split_ifs at h ⊢ <;> simp_all

/-- An ambiguous receive_response result (return 1 or 3) always printed a
    classification line. -/
theorem ambiguous_output_isSome (port : Int) (ev : SelectEvent)
    (h : (receive_response port ev).retCode = 1 ∨
         (receive_response port ev).retCode = 3) :
    (receive_response port ev).output.isSome := by
  cases ev with
  | selErr => simp [receive_response] at h
  | timeout => simp [receive_response]
  | ready udp icmp =>
    cases udp with
    | none =>
      simp only [receive_response] at h ⊢
      exact icmpAnalyze_ambiguous_isSome port icmp h
    | some m =>
      by_cases hm : 0 < m
      · simp [receive_response, hm] at h
      · simp only [receive_response, if_neg hm] at h ⊢
        exact icmpAnalyze_ambiguous_isSome port icmp h

/-- C5: the retry policy with MAX_RETRIES = 2.  A definitive verdict (return 0
    Open or 2 Closed) at the first attempt breaks the loop with exactly one
    probe sent.  Ambiguous verdicts (return 1 OpenOrFiltered or 3 Filtered) at
    both attempts give exactly two sends of the same selected payload, with
    both attempts' lines printed, and the second attempt's ambiguous verdict
    is the last line — the final verdict — with no third send. -/
theorem c5_retry_policy (probes : List UdpProbe) (port : Int) (env : PortEnv)
    (hu : env.udpSockOk = true) (hi : env.icmpSockOk = true)
    (hs : ∀ i, (env.attempts i).sendOk = true) :
    ((receive_response port (env.attempts 0).ev).retCode = 0 ∨
     (receive_response port (env.attempts 0).ev).retCode = 2 →
      scan_udp_port probes port env =
        ⟨[selectedPayload probes port],
         (receive_response port (env.attempts 0).ev).output.toList,
         (receive_response port (env.attempts 0).ev).delta, false⟩) ∧
    (((receive_response port (env.attempts 0).ev).retCode = 1 ∨
      (receive_response port (env.attempts 0).ev).retCode = 3) →
     ((receive_response port (env.attempts 1).ev).retCode = 1 ∨
      (receive_response port (env.attempts 1).ev).retCode = 3) →
      scan_udp_port probes port env =
        ⟨[selectedPayload probes port, selectedPayload probes port],
         (receive_response port (env.attempts 0).ev).output.toList ++
           (receive_response port (env.attempts 1).ev).output.toList,
         (receive_response port (env.attempts 0).ev).delta +
           (receive_response port (env.attempts 1).ev).delta, false⟩ ∧
      (scan_udp_port probes port env).outputs.getLast? =
        (receive_response port (env.attempts 1).ev).output) := by
  rw [scan_udp_port_loop probes port env hu hi]
  have e2 : scan_loop port (selectedPayload probes port) env.attempts 0 2 =
      scan_loop port (selectedPayload probes port) env.attempts 0 (1 + 1) := rfl
  constructor
  · intro hr
    rw [e2, scan_loop_break port (selectedPayload probes port) env.attempts 0 1
      (hs 0) hr]
  · intro h0 h1
    have hr0 : ¬((receive_response port (env.attempts 0).ev).retCode = 0 ∨
        (receive_response port (env.attempts 0).ev).retCode = 2) := by
      rcases h0 with h0 | h0 <;> rw [h0] at * <;> omega
    have hr1 : ¬((receive_response port (env.attempts 1).ev).retCode = 0 ∨
        (receive_response port (env.attempts 1).ev).retCode = 2) := by
      rcases h1 with h1 | h1 <;> rw [h1] at * <;> omega
    have e1 : scan_loop port (selectedPayload probes port) env.attempts 1 1 =
        scan_loop port (selectedPayload probes port) env.attempts 1 (0 + 1) :=
      rfl
    rw [e2, scan_loop_cont port (selectedPayload probes port) env.attempts 0 1
      (hs 0) hr0, e1,
      scan_loop_cont port (selectedPayload probes port) env.attempts 1 0
      (hs 1) hr1, scan_loop_zero]
    obtain ⟨l, hl⟩ := Option.isSome_iff_exists.mp
      (ambiguous_output_isSome port (env.attempts 1).ev h1)
    refine ⟨by simp, ?_⟩
    simp [hl]

/-- Witness for C5 at the all-timeouts environment: two OPEN|FILTERED lines,
    two sends, and the last line is the second attempt's verdict. -/
theorem c5_witness :
    scan_udp_port [] 80 envTimeout =
      ⟨[[], []], [OutputLine.openFilteredLine 80, OutputLine.openFilteredLine 80],
       ⟨0, 0, 0, 2⟩, false⟩ ∧
    (scan_udp_port [] 80 envTimeout).outputs.getLast? =
      some (OutputLine.openFilteredLine 80) := by
  have h := (c5_retry_policy [] 80 envTimeout rfl rfl (fun _ => rfl)).2
    (Or.inl rfl) (Or.inl rfl)
  exact ⟨by rw [h.1]; decide, by rw [h.2]; rfl⟩

/-- The counter each printed classification line bumps: OPEN the open counter,
    CLOSED the closed counter, FILTERED and OPEN|FILTERED the shared filtered
    counter, and no line no counter. -/
def verdictDelta : Option OutputLine → ScanStats
  | none => noStats
  | some (.openLine _ _) => ⟨0, 1, 0, 0⟩
  | some (.closedLine _) => ⟨0, 0, 1, 0⟩
  | some (.filteredLine _ _ _) => ⟨0, 0, 0, 1⟩
  | some (.openFilteredLine _) => ⟨0, 0, 0, 1⟩

theorem icmpAnalyze_delta (port : Int) (icmp : Option (Int × List Nat)) :
    (icmpAnalyze port icmp).delta = verdictDelta (icmpAnalyze port icmp).output := by
  rcases icmp with _ | ⟨n, buf⟩
  · rfl
  · simp only [icmpAnalyze]
    split_ifs <;> rfl

/-- C6 counterexample: scanning ports 53-54 where port 53 replies and port 54
    times out on both attempts yields filtered = 2, not the claimed 1 — the
    counters are bumped by receive_response on every attempt that prints a
    verdict, not once per completed port by the orchestrator, and the timeout
    verdict of the first attempt is counted again on the retry.  The last
    conjunct shows the classifier itself performs a counter mutation. -/
theorem c6_counterexample :
    scan_range [] envOneReplyOneTimeout 53 54 = ⟨2, 1, 0, 2⟩ ∧
    scan_range [] envOneReplyOneTimeout 53 54 ≠ ⟨2, 1, 0, 1⟩ ∧
    (receive_response 54 SelectEvent.timeout).delta ≠ noStats := by decide

/-- C6 amended: the counters are mutated by receive_response, once per attempt
    that prints a verdict, with the mapping Open→open, Closed→closed, and both
    OPEN|FILTERED and FILTERED→filtered; ambiguous attempts are therefore
    counted once per retry, and the two-port scenario (one reply, one double
    timeout) yields {totalPorts 2, open 1, closed 0, filtered 2}. -/
theorem c6_amended_per_attempt_counters :
    (∀ (port : Int) (ev : SelectEvent),
      (receive_response port ev).delta =
        verdictDelta (receive_response port ev).output) ∧
    scan_range [] envOneReplyOneTimeout 53 54 = ⟨2, 1, 0, 2⟩ := by
  refine ⟨?_, by decide⟩
  intro port ev
  cases ev with
  | selErr => rfl
  | timeout => rfl
  | ready udp icmp =>
    cases udp with
    | none => simpa only [receive_response] using icmpAnalyze_delta port icmp
    | some m =>
      by_cases hm : 0 < m
      · simp [receive_response, hm, verdictDelta]
      · simpa only [receive_response, if_neg hm] using icmpAnalyze_delta port icmp

/-- C7 (code bug): when raw ICMP socket creation fails — the unprivileged
    case — scan_udp_port returns before any sendto: the port is not probed at
    all, no verdict of any kind is produced, and no counter moves.  This
    contradicts the program's own unprivileged-run warning ("ICMP detection
    will fail. Run with sudo for accurate results."), which promises a scan
    that still runs with degraded accuracy. -/
theorem c7_no_privilege_aborts_port (probes : List UdpProbe) (port : Int)
    (env : PortEnv) (h : env.icmpSockOk = false) :
    scan_udp_port probes port env = ⟨[], [], noStats, true⟩ := by
  simp [scan_udp_port, h]

/-- Witness for C7 at a concrete unprivileged environment. -/
theorem c7_witness :
    scan_udp_port [] 53 (envNoPriv 53) = ⟨[], [], noStats, true⟩ :=
  c7_no_privilege_aborts_port [] 53 (envNoPriv 53) rfl

/-- C8: an invalid range (startPort < 1, or endPort > 65535, or
    startPort > endPort) makes main return 1 with the scan loop never entered
    (no socket opened); any valid range runs the scan and returns 0 whatever
    the per-port results are (the environment is universally quantified). -/
theorem c8_exit_codes (probes : List UdpProbe) (env : Int → PortEnv)
    (s e : Int) :
    ((s < 1 ∨ e > 65535 ∨ s > e) → mainRun probes env true s e = ⟨1, none⟩) ∧
    (1 ≤ s → s ≤ e → e ≤ 65535 →
      (mainRun probes env true s e).exitCode = 0) := by
  constructor
  · intro h
    have hc : s < 1 ∨ s > 65535 ∨ e < 1 ∨ e > 65535 ∨ s > e := by omega
    simp only [mainRun]
    rw [if_neg (by simp), if_pos hc]
  · intro h1 h2 h3
    have hc : ¬(s < 1 ∨ s > 65535 ∨ e < 1 ∨ e > 65535 ∨ s > e) := by omega
    simp only [mainRun]
    rw [if_neg (by simp), if_neg hc]

/-- Witness for C8: startPort 0 is rejected with exit 1 and no scan; the valid
    range 3-5 exits 0 even though every port's sendto fails. -/
theorem c8_witness :
    mainRun [] envSendFail true 0 5 = ⟨1, none⟩ ∧
    (mainRun [] envSendFail true 3 5).exitCode = 0 :=
  ⟨(c8_exit_codes [] envSendFail 0 5).1 (Or.inl (by decide)),
   (c8_exit_codes [] envSendFail 3 5).2 (by decide) (by decide) (by decide)⟩

/-  Total-port counting helpers for C9. -/

theorem icmpAnalyze_total (port : Int) (icmp : Option (Int × List Nat)) :
    (icmpAnalyze port icmp).delta.total_ports = 0 := by
  rcases icmp with _ | ⟨n, buf⟩
  · rfl
  · simp only [icmpAnalyze]
    split_ifs <;> rfl

theorem receive_response_total (port : Int) (ev : SelectEvent) :
    (receive_response port ev).delta.total_ports = 0 := by
  cases ev with
  | selErr => rfl
  | timeout => rfl
  | ready udp icmp =>
    cases udp with
    | none => simpa only [receive_response] using icmpAnalyze_total port icmp
    | some m =>
      by_cases hm : 0 < m
      · simp [receive_response, hm]
      · simpa only [receive_response, if_neg hm] using icmpAnalyze_total port icmp

theorem scan_loop_total (port : Int) (pay : List Nat) (env : Nat → Attempt) :
    ∀ (fuel i : Nat), (scan_loop port pay env i fuel).delta.total_ports = 0 := by
  intro fuel
  induction fuel with
  | zero => intro i; rfl
  | succ n ih =>
    intro i
    by_cases hsend : (env i).sendOk = true
    · by_cases hr : (receive_response port (env i).ev).retCode = 0 ∨
          (receive_response port (env i).ev).retCode = 2
      · rw [scan_loop_break port pay env i n hsend hr]
        exact receive_response_total port (env i).ev
      · rw [scan_loop_cont port pay env i n hsend hr]
        simp [addStats_def, receive_response_total port (env i).ev, ih (i + 1)]
    · rw [scan_loop_sendFail port pay env i n (by simpa using hsend)]
      rfl

theorem scan_udp_port_total (probes : List UdpProbe) (port : Int)
    (env : PortEnv) : (scan_udp_port probes port env).delta.total_ports = 0 := by
  unfold scan_udp_port
  split
  · split
    · exact scan_loop_total port (selectedPayload probes port) env.attempts
        MAX_RETRIES 0
    · rfl
  · rfl

theorem scan_ports_total (probes : List UdpProbe) (env : Int → PortEnv) :
    ∀ (count : Nat) (port : Int),
      (scan_ports probes env port count).total_ports = count := by
  intro count
  induction count with
  | zero => intro port; rfl
  | succ n ih =>
    intro port
    simp only [scan_ports, addStats_def]
    rw [scan_udp_port_total, ih]
    omega

/-- C9: after a run over a valid range the total_ports counter equals
    endPort − startPort + 1 whatever happened per port (the increment in
    main's loop is unconditional and nothing else touches the counter), and a
    run where every port aborts early — here every sendto fails — still counts
    3 total ports while the open/closed/filtered counters sum to 0. -/
theorem c9_total_ports_unconditional :
    (∀ (probes : List UdpProbe) (env : Int → PortEnv) (s e : Int), s ≤ e →
      (scan_range probes env s e).total_ports = (e - s + 1).toNat) ∧
    (scan_range [] envSendFail 10 12).total_ports = 3 ∧
    (scan_range [] envSendFail 10 12).open_ports +
      (scan_range [] envSendFail 10 12).closed_ports +
      (scan_range [] envSendFail 10 12).filtered_ports = 0 := by
  refine ⟨?_, by decide, by decide⟩
  intro probes env s e _
  unfold scan_range
  exact scan_ports_total probes env (e - s + 1).toNat s

/-- Witness for C9 at the all-sends-fail environment over a concrete range. -/
theorem c9_witness :
    (scan_range [] envSendFail 1 3).total_ports = ((3 : Int) - 1 + 1).toNat :=
  c9_total_ports_unconditional.1 [] envSendFail 1 3 (by decide)

/-  No-verdict attempts for C10. -/

/-- The select outcomes after which receive_response produces no verdict:
    a select() error, UDP readiness whose recvfrom count is ≤ 0, and ICMP
    readiness whose recvfrom count is ≤ 0 or whose datagram is not a
    destination-unreachable message. -/
def silentEvent : SelectEvent → Bool
  | .selErr => true
  | .timeout => false
  | .ready udp icmp =>
    (match udp with
     | some n => decide (n ≤ 0)
     | none => true) &&
    (match icmp with
     | none => true
     | some (n, buf) =>
       decide (n ≤ 0) ||
       !decide (buf.getD ((buf.getD 0 0 % 16) * 4) 0 = ICMP_UNREACH))

theorem icmpAnalyze_silent (port : Int) (n : Int) (buf : List Nat)
    (h : n ≤ 0 ∨ buf.getD ((buf.getD 0 0 % 16) * 4) 0 ≠ ICMP_UNREACH) :
    icmpAnalyze port (some (n, buf)) = ⟨-1, none, noStats⟩ := by
  by_cases hn : 0 < n
  · have hty : buf.getD ((buf.getD 0 0 % 16) * 4) 0 ≠ ICMP_UNREACH := by
      rcases h with h | h
      · omega
      · exact h
    simp only [icmpAnalyze, if_pos hn]
    rw [if_neg hty]
  · simp only [icmpAnalyze]
    rw [if_neg hn]

theorem silent_receive (port : Int) (ev : SelectEvent)
    (h : silentEvent ev = true) :
    receive_response port ev = ⟨-1, none, noStats⟩ := by
  cases ev with
  | selErr => rfl
  | timeout => simp [silentEvent] at h
  | ready udp icmp =>
    rcases udp with _ | m <;> rcases icmp with _ | ⟨n, buf⟩
    · rfl
    · simp only [silentEvent, Bool.and_eq_true, Bool.or_eq_true,
        decide_eq_true_eq, Bool.not_eq_true', decide_eq_false_iff_not] at h
      simpa only [receive_response] using icmpAnalyze_silent port n buf h.2
    · simp only [silentEvent, Bool.and_eq_true, decide_eq_true_eq] at h
      have hm : ¬ 0 < m := by omega
      simp only [receive_response, if_neg hm, icmpAnalyze]
    · simp only [silentEvent, Bool.and_eq_true, Bool.or_eq_true,
        decide_eq_true_eq, Bool.not_eq_true', decide_eq_false_iff_not] at h
      have hm : ¬ 0 < m := by omega
      simpa only [receive_response, if_neg hm]
        using icmpAnalyze_silent port n buf h.2

/-- C10: an attempt whose select/recv cycle is a select error, a UDP datagram
    of length ≤ 0, or an ICMP datagram that is not destination-unreachable
    ends with return -1: nothing is printed and no counter moves; the retry
    loop treats -1 like an ambiguous verdict and re-sends, and when every
    attempt ends this way the loop still stops after MAX_RETRIES = 2 sends,
    leaving the port with no output line and no statistics contribution. -/
theorem c10_no_verdict_attempts :
    (∀ (port : Int) (ev : SelectEvent), silentEvent ev = true →
      receive_response port ev = ⟨-1, none, noStats⟩) ∧
    ∀ (probes : List UdpProbe) (port : Int) (env : PortEnv),
      env.udpSockOk = true → env.icmpSockOk = true →
      (∀ i, (env.attempts i).sendOk = true ∧
            silentEvent (env.attempts i).ev = true) →
      scan_udp_port probes port env =
        ⟨[selectedPayload probes port, selectedPayload probes port],
         [], noStats, false⟩ := by
  refine ⟨silent_receive, ?_⟩
  intro probes port env hu hi hatt
  have h0 := silent_receive port (env.attempts 0).ev (hatt 0).2
  have h1 := silent_receive port (env.attempts 1).ev (hatt 1).2
  have hr0 : ¬((receive_response port (env.attempts 0).ev).retCode = 0 ∨
      (receive_response port (env.attempts 0).ev).retCode = 2) := by
    rw [h0]; decide
  have hr1 : ¬((receive_response port (env.attempts 1).ev).retCode = 0 ∨
      (receive_response port (env.attempts 1).ev).retCode = 2) := by
    rw [h1]; decide
  rw [scan_udp_port_loop probes port env hu hi]
  have e2 : scan_loop port (selectedPayload probes port) env.attempts 0 2 =
      scan_loop port (selectedPayload probes port) env.attempts 0 (1 + 1) := rfl
  have e1 : scan_loop port (selectedPayload probes port) env.attempts 1 1 =
      scan_loop port (selectedPayload probes port) env.attempts 1 (0 + 1) := rfl
  rw [e2, scan_loop_cont port (selectedPayload probes port) env.attempts 0 1
      (hatt 0).1 hr0, e1,
    scan_loop_cont port (selectedPayload probes port) env.attempts 1 0
      (hatt 1).1 hr1, scan_loop_zero, h0, h1]
  simp

/-- A port environment where every select() call fails. -/
def envSelErr : PortEnv := ⟨true, true, fun _ => ⟨true, SelectEvent.selErr⟩⟩

/-- Witness for C10: a port whose every attempt hits a select error gets two
    sends, no output and no counter movement. -/
theorem c10_witness :
    receive_response 9 SelectEvent.selErr = ⟨-1, none, noStats⟩ ∧
    scan_udp_port [] 9 envSelErr = ⟨[[], []], [], noStats, false⟩ :=
  ⟨c10_no_verdict_attempts.1 9 SelectEvent.selErr rfl,
   c10_no_verdict_attempts.2 [] 9 envSelErr rfl rfl (fun _ => ⟨rfl, rfl⟩)⟩

end UdpScanner
